import Mathlib

/-!
Verification of the tag-color style-synchronization engine
(`src/main.ts` of the orca-tana-tag-color plugin).

The TypeScript source is shallowly embedded: DOM elements become explicit
records, `Map`s become association lists, timestamps become naturals, the
backend fetch becomes an explicit argument, and `requestAnimationFrame`
callbacks are sequenced at the end of the call that scheduled them.
-/

namespace TagColor

/-- JavaScript string truthiness for `string | null` values: `null` and the
empty string are falsy.  `jsTruthy o` is `some s` exactly when `o` holds a
truthy string. -/
def jsTruthy : Option String → Option String
  | none => none
  | some s => if s = "" then none else some s

/-- JS `s.startsWith(pre)`, computed on the character lists (the built-in
`String.startsWith` is byte-position based and does not reduce). -/
def jsStartsWith (s pre : String) : Bool :=
  pre.data.isPrefixOf s.data

/-- JS `s.split(sep)` for a single-character separator, on character
lists: `"".split(sep)` is `[""]`, and separators at the ends produce empty
fields, as in JavaScript. -/
def splitChars (sep : Char) : List Char → List (List Char)
  | [] => [[]]
  | c :: cs =>
    if c = sep then [] :: splitChars sep cs
    else
      match splitChars sep cs with
      | [] => [[c]]
      | h :: t => (c :: h) :: t

/-! ## Color math (`hexToRgba`, `calculateDomColor`, `generateMultiColorBackground`) -/

/-- One step of `hex.replace('#', '')`: JS `String.replace` with a string
pattern removes only the first occurrence. -/
def removeFirstHash : List Char → List Char
  | [] => []
  | c :: cs => if c = '#' then cs else c :: removeFirstHash cs

def isHexDigitChar (c : Char) : Bool :=
  c.isDigit || ('a' ≤ c && c ≤ 'f') || ('A' ≤ c && c ≤ 'F')

def hexDigitVal (c : Char) : Nat :=
  if c.isDigit then c.toNat - '0'.toNat
  else if 'a' ≤ c && c ≤ 'f' then c.toNat - 'a'.toNat + 10
  else c.toNat - 'A'.toNat + 10

/-- `parseInt(s, 16)`: parse the longest hex-digit prefix; no digits means
`NaN`, modelled as `none`. -/
def parseIntHex (s : List Char) : Option Nat :=
  let pre := s.takeWhile isHexDigitChar
  if pre = [] then none
  else some (pre.foldl (fun a c => 16 * a + hexDigitVal c) 0)

/-- JS `s.substring(a, b)` for `a ≤ b`. -/
def jsSubstring (s : List Char) (a b : Nat) : List Char :=
  (s.drop a).take (b - a)

def rgbaComponent : Option Nat → String
  | none => "NaN"
  | some n => toString n

/-- `hexToRgba(hex, alpha)` from `src/main.ts`.  The alpha argument is passed
already rendered in its JS decimal form (the call sites use the literals
`0.75`, `0.45`, `0.65` and `1`).  The memo cache around the source function
is keyed on both arguments and so does not change its value. -/
def hexToRgba (hex : String) (alpha : String) : String :=
  let h := removeFirstHash hex.data
  let h := if h.length = 3 then h.flatMap (fun c => [c, c]) else h
  let r := parseIntHex (jsSubstring h 0 2)
  let g := parseIntHex (jsSubstring h 2 4)
  let b := parseIntHex (jsSubstring h 4 6)
  "rgba(" ++ rgbaComponent r ++ ", " ++ rgbaComponent g ++ ", " ++
    rgbaComponent b ++ ", " ++ alpha ++ ")"

/-- `calculateDomColor` from `src/main.ts`. -/
def calculateDomColor (colorValue : String) : String :=
  "oklch(from " ++ colorValue ++ " calc(1.3 * l) c h)"

/-- `generateMultiColorBackground` from `src/main.ts` (container-handle
surface): 2 colors split top/bottom in a stepped linear gradient, 3 and 4
colors become conic gradients; 0 or 1 colors yield the empty string. -/
def generateMultiColorBackground : List String → String
  | [] => ""
  | [_] => ""
  | [a, b] =>
      let colorA := hexToRgba a "0.75"
      let colorB := hexToRgba b "0.75"
      "linear-gradient(to bottom, " ++ colorA ++ " 0%, " ++ colorA ++ " 50%, " ++
        colorB ++ " 50%, " ++ colorB ++ " 100%)"
  | [a, b, c] =>
      let colorA := hexToRgba a "0.75"
      let colorB := hexToRgba b "0.75"
      let colorC := hexToRgba c "0.75"
      "conic-gradient(from 0deg, " ++ colorA ++ " 0deg 120deg, " ++ colorB ++
        " 120deg 240deg, " ++ colorC ++ " 240deg 360deg)"
  | a :: b :: c :: d :: _ =>
      let colorA := hexToRgba a "0.75"
      let colorB := hexToRgba b "0.75"
      let colorC := hexToRgba c "0.75"
      let colorD := hexToRgba d "0.75"
      "conic-gradient(from 0deg, " ++ colorA ++ " 0deg 90deg, " ++ colorB ++
        " 90deg 180deg, " ++ colorC ++ " 180deg 270deg, " ++ colorD ++
        " 270deg 360deg)"

/-- `generateMultiColorBackground` from the earlier snapshot
`src/unnamed/part_002`: all multi-color cases are conic, at alpha 0.45. -/
def generateMultiColorBackgroundV2 : List String → String
  | [] => ""
  | [_] => ""
  | [a, b] =>
      let colorA := hexToRgba a "0.45"
      let colorB := hexToRgba b "0.45"
      "conic-gradient(from 0deg, " ++ colorA ++ " 0deg 180deg, " ++ colorB ++
        " 180deg 360deg)"
  | [a, b, c] =>
      let colorA := hexToRgba a "0.45"
      let colorB := hexToRgba b "0.45"
      let colorC := hexToRgba c "0.45"
      "conic-gradient(from 0deg, " ++ colorA ++ " 0deg 120deg, " ++ colorB ++
        " 120deg 240deg, " ++ colorC ++ " 240deg 360deg)"
  | a :: b :: c :: d :: _ =>
      let colorA := hexToRgba a "0.45"
      let colorB := hexToRgba b "0.45"
      let colorC := hexToRgba c "0.45"
      let colorD := hexToRgba d "0.45"
      "conic-gradient(from 0deg, " ++ colorA ++ " 0deg 90deg, " ++ colorB ++
        " 90deg 180deg, " ++ colorC ++ " 180deg 270deg, " ++ colorD ++
        " 270deg 360deg)"

/-- A color stop occupying the interval from `lo` to `hi` (in the unit of the
surrounding gradient: percent for linear, degrees for conic). -/
structure GradStop where
  color : String
  lo : Nat
  hi : Nat
deriving DecidableEq

/-- Spec-side stop layout: `n` colors divide a surface of size `total`
(100 for percent, 360 for degrees) into `n` equal consecutive intervals. -/
def equalStops (total : Nat) (colors : List String) : List GradStop :=
  let n := colors.length
  colors.enum.map fun p => ⟨p.2, total * p.1 / n, total * (p.1 + 1) / n⟩

/-- Render a stop list as a stepped `to bottom` linear gradient, each stop
contributing its color at both of its boundaries. -/
def renderSteppedLinear (stops : List GradStop) : String :=
  "linear-gradient(to bottom" ++
    String.join (stops.map fun s =>
      ", " ++ s.color ++ " " ++ toString s.lo ++ "%, " ++ s.color ++ " " ++
        toString s.hi ++ "%") ++ ")"

/-- Render a stop list as a `from 0deg` conic gradient. -/
def renderConic (stops : List GradStop) : String :=
  "conic-gradient(from 0deg" ++
    String.join (stops.map fun s =>
      ", " ++ s.color ++ " " ++ toString s.lo ++ "deg " ++ toString s.hi ++
        "deg") ++ ")"

/-! ## `StyleChangeDetector` (`src/main.ts` lines 690–881) -/

/-- The per-element style snapshot the detector reads and compares
(`getElementAppliedStyleState`): the five inline-style/attribute fields plus
whether the element's class list contains the bold class `b`. -/
structure StyleSnap where
  color : String
  backgroundColor : String
  backgroundImage : String
  opacity : String
  dataIcon : String
  hasBoldClass : Bool
deriving DecidableEq

/-- Per-element detector record (`elementStyleStates` entry). -/
structure DetState where
  expected : StyleSnap
  applied : StyleSnap
  changeCount : Nat
  lastChangeTime : Nat
  isStable : Bool
deriving DecidableEq

/-- `MAX_CHANGE_COUNT` in `StyleChangeDetector`. -/
def MAX_CHANGE_COUNT : Nat := 3

/-- `STABLE_THRESHOLD` in `StyleChangeDetector` (milliseconds). -/
def STABLE_THRESHOLD : Nat := 100

/-- `recordExpectedStyles`: store the five expected fields, extending them
with the element's current bold-class status, and reset the counters. -/
def recordExpectedStyles (expectedColor expectedBg expectedBgImage
    expectedOpacity expectedDataIcon : String) (currentApplied : StyleSnap)
    (now : Nat) : DetState :=
  { expected := { color := expectedColor, backgroundColor := expectedBg
                , backgroundImage := expectedBgImage, opacity := expectedOpacity
                , dataIcon := expectedDataIcon
                , hasBoldClass := currentApplied.hasBoldClass }
  , applied := currentApplied
  , changeCount := 0
  , lastChangeTime := now
  , isStable := false }

/-- The six-way comparison inside `needsStyleUpdate` (`stylesMatch`). -/
def snapMatch (expected current : StyleSnap) : Bool :=
  expected.color = current.color &&
  expected.backgroundColor = current.backgroundColor &&
  expected.backgroundImage = current.backgroundImage &&
  expected.opacity = current.opacity &&
  expected.dataIcon = current.dataIcon &&
  expected.hasBoldClass = current.hasBoldClass

/-- `needsStyleUpdate` from `src/main.ts` lines 771–843.  Inputs: the global
scrolling flag, the element's cached detector state (`none` when the element
was never recorded), the freshly read applied snapshot, and the current
clock.  Returns the boolean answer together with the (mutated) cached
state. -/
def needsStyleUpdate (isScrolling : Bool) (cached : Option DetState)
    (current : StyleSnap) (now : Nat) : Bool × Option DetState :=
  if isScrolling then (false, cached)
  else
    match cached with
    | none => (true, none)
    | some st =>
      if current.hasBoldClass then (false, some st)
      else if !snapMatch st.expected current then
        (true, some { st with changeCount := 0, lastChangeTime := now
                            , isStable := false })
      else
        let count := st.changeCount + 1
        let stable := if count ≥ MAX_CHANGE_COUNT then true else st.isStable
        let lastTime := if count ≥ MAX_CHANGE_COUNT then now else st.lastChangeTime
        let st := { st with changeCount := count, isStable := stable
                          , lastChangeTime := lastTime }
        if st.isStable && now - st.lastChangeTime > STABLE_THRESHOLD then
          (false, some st)
        else if st.isStable then (false, some st)
        else (true, some st)

/-! ## `DataCache` (`src/main.ts` lines 477–564) -/

/-- Result shape of `getBlockStyleProperties` and the payload of a
`DataCache` entry. -/
structure StyleProps where
  colorValue : Option String
  iconValue : Option String
  colorEnabled : Bool
  iconEnabled : Bool
deriving DecidableEq

/-- `CACHE_TTL` of `DataCache` (milliseconds). -/
def CACHE_TTL : Nat := 5000

structure CacheEntry where
  props : StyleProps
  timestamp : Nat
deriving DecidableEq

/-- The `blockPropertiesCache` map, as an association list with unique
keys (first match wins, mirroring `Map.get`). -/
def BlockCache := List (Nat × CacheEntry)

def lookupEntry (cache : List (Nat × CacheEntry)) (blockId : Nat) :
    Option CacheEntry :=
  (cache.find? (fun p => p.1 = blockId)).map (·.2)

def eraseEntry (cache : List (Nat × CacheEntry)) (blockId : Nat) :
    List (Nat × CacheEntry) :=
  cache.filter (fun p => p.1 ≠ blockId)

/-- `Map.set`: overwrite an existing key, else insert. -/
def setEntry (cache : List (Nat × CacheEntry)) (blockId : Nat)
    (e : CacheEntry) : List (Nat × CacheEntry) :=
  if (cache.find? (fun p => p.1 = blockId)).isSome then
    cache.map (fun p => if p.1 = blockId then (blockId, e) else p)
  else cache ++ [(blockId, e)]

/-- `DataCache.getBlockProperties`: a hit older than `CACHE_TTL` is deleted
and reported as a miss; otherwise the stored value is returned unchanged. -/
def getBlockProperties (cache : List (Nat × CacheEntry)) (blockId : Nat)
    (now : Nat) : Option StyleProps × List (Nat × CacheEntry) :=
  match lookupEntry cache blockId with
  | none => (none, cache)
  | some e =>
    if now - e.timestamp > CACHE_TTL then (none, eraseEntry cache blockId)
    else (some e.props, cache)

/-- `DataCache.setBlockProperties`. -/
def setBlockProperties (cache : List (Nat × CacheEntry)) (blockId : Nat)
    (props : StyleProps) (now : Nat) : List (Nat × CacheEntry) :=
  setEntry cache blockId ⟨props, now⟩

/-! ## `getBlockStyleProperties` (`src/main.ts` lines 1949–2004) -/

/-- One entry of a block's `properties` array, restricted to the fields the
engine reads. -/
structure PropEntry where
  name : String
  ptype : Nat
  value : Option String
deriving DecidableEq

/-- Outcome of `orca.invokeBackend("get-block", id)`: the call may throw or
reject (`failure`), return a block without a well-formed `properties` array
(`success none`), or return a block with its properties. -/
inductive FetchResult where
  | failure
  | success (properties : Option (List PropEntry))
deriving DecidableEq

def noStyleProps : StyleProps :=
  { colorValue := none, iconValue := none
  , colorEnabled := false, iconEnabled := false }

/-- The property scan of `getBlockStyleProperties`: the first `_color` and
first `_icon` entries win; `enabled` means the property's type discriminant
is 1; a falsy stored value (`value || null`) resolves to `none`. -/
def computeStyleProps (properties : List PropEntry) : StyleProps :=
  let colorProperty := properties.find? (fun p => p.name = "_color")
  let iconProperty := properties.find? (fun p => p.name = "_icon")
  let colorEnabled := colorProperty.elim false (fun p => p.ptype = 1)
  let iconEnabled := iconProperty.elim false (fun p => p.ptype = 1)
  { colorValue := if colorEnabled then jsTruthy (colorProperty.elim none (·.value)) else none
  , iconValue := if iconEnabled then jsTruthy (iconProperty.elim none (·.value)) else none
  , colorEnabled := colorEnabled
  , iconEnabled := iconEnabled }

/-- `getBlockStyleProperties`: consult the TTL cache first; on a miss run the
backend fetch (passed in as `fetch`), treating a throw or a malformed block
as the no-style result; always cache what is returned. -/
def getBlockStyleProperties (cache : List (Nat × CacheEntry)) (blockId : Nat)
    (fetch : FetchResult) (now : Nat) :
    StyleProps × List (Nat × CacheEntry) :=
  match getBlockProperties cache blockId now with
  | (some cachedProps, c) => (cachedProps, c)
  | (none, c) =>
    match fetch with
    | .failure => (noStyleProps, setBlockProperties c blockId noStyleProps now)
    | .success none => (noStyleProps, setBlockProperties c blockId noStyleProps now)
    | .success (some properties) =>
      let r := computeStyleProps properties
      (r, setBlockProperties c blockId r now)

/-! ## Tag-fallback resolution (`processPanelBlocks` container path,
`src/main.ts` lines 2090–2322, and `getFirstValidTagProps` lines 1927–1943) -/

/-- A tag reference together with the style properties fetched for its
target block (`getBlockStyleProperties(ref.to)`). -/
structure TagEntry where
  blockId : Nat
  props : StyleProps
deriving DecidableEq

/-- `colorEnabled && colorValue` (JS truthiness), yielding the color. -/
def enabledColor (p : StyleProps) : Option String :=
  if p.colorEnabled then jsTruthy p.colorValue else none

/-- `iconEnabled && iconValue` (JS truthiness), yielding the icon. -/
def enabledIcon (p : StyleProps) : Option String :=
  if p.iconEnabled then jsTruthy p.iconValue else none

/-- The validity test of `getFirstValidTagProps`: the tag has an enabled
color or an enabled icon. -/
def isValidTag (p : StyleProps) : Bool :=
  (enabledColor p).isSome || (enabledIcon p).isSome

/-- `getFirstValidTagProps(tagRefs, maxCount)`: walk the references in
order, keep those with an enabled color or icon, and stop once `maxCount`
have been collected. -/
def getFirstValidTagProps : List TagEntry → Nat → List TagEntry
  | [], _ => []
  | _, 0 => []
  | t :: ts, Nat.succ m =>
    if isValidTag t.props then t :: getFirstValidTagProps ts m
    else getFirstValidTagProps ts (m + 1)

/-- Where a resolved color came from (`colorSource`). -/
inductive Source where
  | block
  | tag
deriving DecidableEq

/-- The record the container path of `processPanelBlocks` resolves per
block (the `blockId`/`elementType` bookkeeping fields are omitted). -/
structure Resolved where
  aliasBlockId : Nat
  colorValue : Option String
  iconValue : Option String
  colorSource : Source
  domColor : Option String
  tagColors : List String
deriving DecidableEq

/-- `validTagProps.filter(colorEnabled && colorValue).map(colorValue)`. -/
def tagColorsOf (validTagProps : List TagEntry) : List String :=
  validTagProps.filterMap (fun t => enabledColor t.props)

/-- The container branch with tags (`src/main.ts` lines 2142–2275), after
the tag references have been ordered and their target properties fetched:
`bp` is the block's own style properties, `sortedTags` the ordered tag
entries. -/
def containerResolveWithTags (blockId : Nat) (bp : StyleProps)
    (sortedTags : List TagEntry) : Option Resolved :=
  match sortedTags with
  | [] => none
  | _ :: _ =>
    match getFirstValidTagProps sortedTags 4 with
    | [] => none
    | firstTag :: restValid =>
      let validTagProps := firstTag :: restValid
      match enabledColor bp with
      | some c =>
        -- Self color wins; self icon, else the first valid tag's icon.
        some { aliasBlockId := blockId
             , colorValue := some c
             , iconValue :=
                 match jsTruthy bp.iconValue with
                 | some i => some i
                 | none => firstTag.props.iconValue
             , colorSource := .block
             , domColor := some (calculateDomColor c)
             , tagColors := [c] }
      | none =>
        match enabledIcon bp with
        | some selfIcon =>
          match tagColorsOf validTagProps with
          | [] =>
            some { aliasBlockId := blockId, colorValue := none
                 , iconValue := some selfIcon, colorSource := .block
                 , domColor := none, tagColors := [] }
          | c0 :: cs =>
            some { aliasBlockId := firstTag.blockId, colorValue := some c0
                 , iconValue := some selfIcon, colorSource := .tag
                 , domColor := some (calculateDomColor c0)
                 , tagColors := c0 :: cs }
        | none =>
          match tagColorsOf validTagProps with
          | [] =>
            match enabledIcon firstTag.props with
            | some tagIcon =>
              some { aliasBlockId := firstTag.blockId, colorValue := none
                   , iconValue := some tagIcon, colorSource := .tag
                   , domColor := none, tagColors := [] }
            | none => none
          | c0 :: cs =>
            some { aliasBlockId := firstTag.blockId, colorValue := some c0
                 , iconValue := firstTag.props.iconValue, colorSource := .tag
                 , domColor := some (calculateDomColor c0)
                 , tagColors := c0 :: cs }

/-- The container branch without tags (`src/main.ts` lines 2279–2322). -/
def containerResolveNoTags (blockId : Nat) (bp : StyleProps) :
    Option Resolved :=
  match enabledColor bp with
  | some c =>
    some { aliasBlockId := blockId, colorValue := some c
         , iconValue := bp.iconValue, colorSource := .block
         , domColor := some (calculateDomColor c), tagColors := [c] }
  | none =>
    match enabledIcon bp with
    | some i =>
      some { aliasBlockId := blockId, colorValue := none
           , iconValue := some i, colorSource := .block
           , domColor := none, tagColors := [] }
    | none => none

/-- A block reference (`blockData.refs` entry, restricted to the fields
read: `id`, `to` and `type`). -/
structure Ref where
  rid : Nat
  toId : Nat
  rtype : Nat
deriving DecidableEq

/-- Tag ordering (`src/main.ts` lines 2121–2141): keep `type == 2`
references; when the `_tags` property carries an order list, re-order by
it through a `Map` keyed on reference id (last duplicate wins), dropping
ids with no matching reference. -/
def sortTagRefs (refs : List Ref) (orderList : Option (List Nat)) :
    List Ref :=
  let allTagRefs := refs.filter (fun r => r.rtype = 2)
  match orderList with
  | none => allTagRefs
  | some orderedIds =>
    orderedIds.filterMap
      (fun tid => (allTagRefs.filter (fun r => r.rid = tid)).getLast?)

/-- The whole container resolution (one element of the `processPanelBlocks`
container loop), with the backend property fetch abstracted as the oracle
`fetchProps : blockId → StyleProps` (each tag's properties come from
`getBlockStyleProperties`).  `hasTags` is the DOM test for an
`.orca-tags .orca-tag` under the block's `.orca-repr-main`. -/
def containerResolve (hasTags : Bool) (blockId : Nat) (bp : StyleProps)
    (refs : List Ref) (orderList : Option (List Nat))
    (fetchProps : Nat → StyleProps) : Option Resolved :=
  if hasTags then
    match refs with
    | [] => none
    | _ :: _ =>
      containerResolveWithTags blockId bp
        ((sortTagRefs refs orderList).map (fun r => ⟨r.toId, fetchProps r.toId⟩))
  else containerResolveNoTags blockId bp

/-- The writer dispatch (`src/main.ts` lines 2550–2564 and 1004–1010):
more than one tag color takes the multi-tag gradient path, otherwise the
single-color path. -/
inductive RenderPath where
  | multi
  | single
deriving DecidableEq

def renderPathFor (tagColors : List String) : RenderPath :=
  if tagColors.length > 1 then .multi else .single

/-! ## `DOMCache` (`src/main.ts` lines 570–683) -/

/-- A render-tree node handle: an identity plus whether
`document.contains` holds for it at the current instant. -/
structure DomElem where
  eid : Nat
  attached : Bool
deriving DecidableEq

structure DOMCacheState where
  panelCache : List (String × Option DomElem)
  containerCache : List (String × List DomElem)
deriving DecidableEq

def panelLookup (st : DOMCacheState) (panelId : String) :
    Option (Option DomElem) :=
  (st.panelCache.find? (fun p => p.1 = panelId)).map (·.2)

def panelErase (st : DOMCacheState) (panelId : String) : DOMCacheState :=
  { st with panelCache := st.panelCache.filter (fun p => p.1 ≠ panelId) }

def panelSet (st : DOMCacheState) (panelId : String) (v : Option DomElem) :
    DOMCacheState :=
  if (st.panelCache.find? (fun p => p.1 = panelId)).isSome then
    { st with panelCache :=
        st.panelCache.map (fun p => if p.1 = panelId then (panelId, v) else p) }
  else { st with panelCache := st.panelCache ++ [(panelId, v)] }

def containerLookup (st : DOMCacheState) (key : String) :
    Option (List DomElem) :=
  (st.containerCache.find? (fun p => p.1 = key)).map (·.2)

def containerErase (st : DOMCacheState) (key : String) : DOMCacheState :=
  { st with containerCache := st.containerCache.filter (fun p => p.1 ≠ key) }

def containerSet (st : DOMCacheState) (key : String) (v : List DomElem) :
    DOMCacheState :=
  if (st.containerCache.find? (fun p => p.1 = key)).isSome then
    { st with containerCache :=
        st.containerCache.map (fun p => if p.1 = key then (key, v) else p) }
  else { st with containerCache := st.containerCache ++ [(key, v)] }

/-- `DOMCache.getPanelElement`: a cached element is revalidated with
`document.contains`; a detached or null cached entry is evicted and the
document re-queried (`panelQuery` stands for
`document.querySelector('[data-panel-id=...]')`). -/
def getPanelElement (st : DOMCacheState) (panelId : String)
    (panelQuery : Option DomElem) : Option DomElem × DOMCacheState :=
  match panelLookup st panelId with
  | some (some el) =>
    if el.attached then (some el, st)
    else
      let st := panelErase st panelId
      (panelQuery, panelSet st panelId panelQuery)
  | some none =>
    let st := panelErase st panelId
    (panelQuery, panelSet st panelId panelQuery)
  | none => (panelQuery, panelSet st panelId panelQuery)

/-- `DOMCache.getContainerElements` from `src/src/main.ts`: a cached
non-empty list is returned as-is — the source deliberately skips the DOM
validity check ("只检查缓存是否存在，不检查DOM有效性"); an empty cached
list is evicted and the document re-queried.  `containerQuery` stands for
`panelElement.querySelectorAll('.orca-block.orca-container')` and
`globalQuery` for the document-wide fallback query used when the panel
element is missing. -/
def getContainerElements (st : DOMCacheState) (panelId : String)
    (panelQuery : Option DomElem) (containerQuery globalQuery : List DomElem) :
    List DomElem × DOMCacheState :=
  let cacheKey := panelId ++ "_containers"
  match containerLookup st cacheKey with
  | some cachedElements =>
    if cachedElements.length > 0 then (cachedElements, st)
    else
      let st := containerErase st cacheKey
      getContainerElementsFresh st panelId cacheKey panelQuery containerQuery
        globalQuery
  | none =>
    getContainerElementsFresh st panelId cacheKey panelQuery containerQuery
      globalQuery
where
  getContainerElementsFresh (st : DOMCacheState) (panelId cacheKey : String)
      (panelQuery : Option DomElem) (containerQuery globalQuery : List DomElem) :
      List DomElem × DOMCacheState :=
    match getPanelElement st panelId panelQuery with
    | (none, st) => (globalQuery, containerSet st cacheKey globalQuery)
    | (some _, st) => (containerQuery, containerSet st cacheKey containerQuery)

/-! ## Observer retry (`UnifiedObserverManager.observePanelContainers`,
`src/main.ts` lines 1066–1098) -/

/-- Retry chain of `observePanelContainers`: `panelCounts k` is the number
of `[data-panel-id]` containers present when the `k`-th call runs.
`retryScheduledAfter panelCounts n` says whether, after the initial call
and `n` timer firings, another 100 ms retry is still scheduled.  The
source clears any previous timer, queries the document, and — when no
panel containers exist — unconditionally schedules itself again; no
attempt counter is kept. -/
def retryScheduledAfter (panelCounts : Nat → Nat) : Nat → Bool
  | 0 => panelCounts 0 = 0
  | n + 1 =>
    if panelCounts 0 = 0 then
      retryScheduledAfter (fun k => panelCounts (k + 1)) n
    else false

/-! ## Style writer (`applyBlockHandleColor` lines 1743–1873 and
`applyMultiTagHandleColor` lines 1561–1734 of `src/main.ts`)

An element carries its ordered class list (`DOMTokenList` semantics:
`add` appends when absent, `remove` deletes), its `data-icon` attribute
and the inline styles the writer touches.  `requestAnimationFrame`
callbacks (the Tabler icon-class swap, and the multi-tag background
block) run after the synchronous part of the same call, in the order
they were scheduled. -/

structure InlineStyle where
  color : Option String
  backgroundColor : Option String
  backgroundImage : Option String
  opacity : Option String
deriving DecidableEq

structure Elem where
  classes : List String
  dataIcon : Option String
  style : InlineStyle
deriving DecidableEq

/-- `classList.add`: append unless present. -/
def classAdd (l : List String) (cls : String) : List String :=
  if cls ∈ l then l else l ++ [cls]

/-- Is a class a Tabler icon class (`ti` itself or `ti-` prefixed)? -/
def isTiClass (cls : String) : Bool :=
  cls = "ti" || jsStartsWith cls "ti-"

/-- Remove every existing Tabler icon class
(`existingClasses.forEach(... classList.remove ...)`). -/
def removeTiClasses (l : List String) : List String :=
  l.filter (fun c => !isTiClass c)

/-- `iconValue.split(' ').filter(cls => cls.trim() !== '')`. -/
def iconClassesOf (iconValue : String) : List String :=
  ((splitChars ' ' iconValue.data).map List.asString).filter (fun c => c ≠ "")

/-- The Tabler icon-class update run inside `requestAnimationFrame`:
remove every `ti`/`ti-` class, then add the icon's classes. -/
def tiClassUpdate (iconValue : String) (e : Elem) : Elem :=
  { e with classes :=
      (iconClassesOf iconValue).foldl classAdd (removeTiClasses e.classes) }

def setColor (v : String) (e : Elem) : Elem :=
  { e with style := { e.style with color := some v } }

def removeColorStyle (e : Elem) : Elem :=
  { e with style := { e.style with color := none } }

def setBgColor (v : String) (e : Elem) : Elem :=
  { e with style := { e.style with backgroundColor := some v } }

def removeBgColor (e : Elem) : Elem :=
  { e with style := { e.style with backgroundColor := none } }

def setBgImage (v : String) (e : Elem) : Elem :=
  { e with style := { e.style with backgroundImage := some v } }

def removeBgImage (e : Elem) : Elem :=
  { e with style := { e.style with backgroundImage := none } }

def setOpacity (v : String) (e : Elem) : Elem :=
  { e with style := { e.style with opacity := some v } }

def setDataIcon (v : String) (e : Elem) : Elem :=
  { e with dataIcon := some v }

def collapsedClass : String := "orca-block-handle-collapsed"

/-- The synchronous part of the single-path handle processing
(`applyBlockHandleColor`, lines 1759–1807): set the foreground color, set
`data-icon` for non-Tabler icons, and apply or clear the collapsed-state
background. -/
def handleSingleSync (displayColor bgColorValue : String)
    (iconValue : Option String) (e : Elem) : Elem :=
  let e := setColor displayColor e
  let e :=
    match jsTruthy iconValue with
    | some iv => if jsStartsWith iv "ti " then e else setDataIcon iv e
    | none => e
  if collapsedClass ∈ e.classes then
    setBgColor (hexToRgba bgColorValue "0.45") e
  else setOpacity "1" (removeBgColor e)

/-- The deferred (`requestAnimationFrame`) part of the handle processing:
the Tabler icon-class swap. -/
def handleTiRaf (iconValue : Option String) (e : Elem) : Elem :=
  match jsTruthy iconValue with
  | some iv => if jsStartsWith iv "ti " then tiClassUpdate iv e else e
  | none => e

/-- Single-path handle processing: synchronous part, then the deferred
icon-class swap. -/
def applyHandleSingle (displayColor bgColorValue : String)
    (iconValue : Option String) (e : Elem) : Elem :=
  handleTiRaf iconValue (handleSingleSync displayColor bgColorValue iconValue e)

/-- Synchronous part of the multi-path handle processing
(`applyMultiTagHandleColor`, lines 1578–1634): overlay the foreground
color when more than one tag color is present, set `data-icon` for
non-Tabler icons, and — in the single-tag case — handle the collapsed
background synchronously. -/
def handleMultiSync (displayColor : String) (iconValue : Option String)
    (tagColors : List String) (e : Elem) : Elem :=
  let e := if tagColors.length > 1 then setColor displayColor e else e
  let e :=
    match jsTruthy iconValue with
    | some iv => if jsStartsWith iv "ti " then e else setDataIcon iv e
    | none => e
  match tagColors with
  | [c] =>
    if collapsedClass ∈ e.classes then
      removeBgImage (setBgColor (hexToRgba c "0.45") e)
    else setOpacity "1" (removeBgImage (removeBgColor e))
  | _ => e

/-- Deferred part of the multi-path handle processing for 0 or ≥ 2 tag
colors (lines 1637–1654): add the collapsed marker class, install the
generated gradient (or clear the backgrounds when there is none), and
force full opacity. -/
def handleMultiBgRaf (tagColors : List String) (e : Elem) : Elem :=
  match tagColors with
  | [_] => e
  | _ =>
    let e := { e with classes := classAdd e.classes collapsedClass }
    let multiColorBg := generateMultiColorBackground tagColors
    let e :=
      if multiColorBg ≠ "" then removeBgColor (setBgImage multiColorBg e)
      else removeBgImage (removeBgColor e)
    setOpacity "1" e

/-- Multi-path handle processing: synchronous part, then the deferred
icon-class swap, then the deferred background block (in scheduling
order). -/
def applyHandleMulti (displayColor : String) (iconValue : Option String)
    (tagColors : List String) (e : Elem) : Elem :=
  handleMultiBgRaf tagColors
    (handleTiRaf iconValue (handleMultiSync displayColor iconValue tagColors e))

/-- Title processing of `applyBlockHandleColor` (lines 1815–1838). -/
def applyTitleSingle (enableTitleColor : Bool) (displayColor : String)
    (e : Elem) : Elem :=
  if enableTitleColor then setColor displayColor e else removeColorStyle e

/-- Title processing of `applyMultiTagHandleColor` (lines 1664–1696): the
color is applied only for tag-sourced colors; when the setting is off the
color is cleared; a block-sourced color with the setting on leaves the
title untouched. -/
def applyTitleMulti (enableTitleColor : Bool) (colorSource : Source)
    (displayColor : String) (e : Elem) : Elem :=
  if colorSource = .tag && enableTitleColor then setColor displayColor e
  else if !enableTitleColor then removeColorStyle e
  else e

/-- Inline-text processing of `applyBlockHandleColor` (lines 1843–1872):
skip elements carrying `fc`, clear the color on bold (`b`) elements, and
otherwise set or clear the color per the setting. -/
def applyInlineSingle (enableInlineColor : Bool) (displayColor : String)
    (e : Elem) : Elem :=
  if "fc" ∈ e.classes then e
  else if "b" ∈ e.classes then removeColorStyle e
  else if enableInlineColor then setColor displayColor e
  else removeColorStyle e

/-- Inline-text processing of `applyMultiTagHandleColor` (lines
1701–1733). -/
def applyInlineMulti (enableInlineColor : Bool) (colorSource : Source)
    (displayColor : String) (e : Elem) : Elem :=
  if "fc" ∈ e.classes then e
  else if "b" ∈ e.classes then removeColorStyle e
  else if enableInlineColor && colorSource = .tag then setColor displayColor e
  else removeColorStyle e

/-- The node set of one container block: its handle, title and inline-text
elements, each flagged with whether its nearest `.orca-block.orca-container`
ancestor is the current block (elements of nested child blocks are
skipped). -/
structure BlockNode where
  handles : List (Bool × Elem)
  titles : List (Bool × Elem)
  inlines : List (Bool × Elem)
deriving DecidableEq

def onOwn (f : Elem → Elem) (p : Bool × Elem) : Bool × Elem :=
  if p.1 then (p.1, f p.2) else p

/-- `applyBlockHandleColor(blockElement, displayColor, bgColorValue,
iconValue)` over the block's element set, with the two settings read from
the plugin state passed explicitly. -/
def applyBlockHandleColor (enableTitleColor enableInlineColor : Bool)
    (displayColor bgColorValue : String) (iconValue : Option String)
    (b : BlockNode) : BlockNode :=
  { handles := b.handles.map (onOwn (applyHandleSingle displayColor bgColorValue iconValue))
  , titles := b.titles.map (onOwn (applyTitleSingle enableTitleColor displayColor))
  , inlines := b.inlines.map (onOwn (applyInlineSingle enableInlineColor displayColor)) }

/-- `applyMultiTagHandleColor(blockElement, displayColor, bgColorValue,
iconValue, tagColors, colorSource)` over the block's element set. -/
def applyMultiTagHandleColor (enableTitleColor enableInlineColor : Bool)
    (displayColor : String) (iconValue : Option String)
    (tagColors : List String) (colorSource : Source) (b : BlockNode) :
    BlockNode :=
  { handles := b.handles.map (onOwn (applyHandleMulti displayColor iconValue tagColors))
  , titles := b.titles.map (onOwn (applyTitleMulti enableTitleColor colorSource displayColor))
  , inlines := b.inlines.map (onOwn (applyInlineMulti enableInlineColor colorSource displayColor)) }

/-- A resolved icon value is well-formed as a Tabler icon: either absent,
or not in Tabler `"ti ..."` form at all, or all of its space-separated
tokens are `ti`/`ti-` classes (as every real Tabler icon value
`"ti ti-name"` is). -/
def tiTokensOK (iconValue : Option String) : Bool :=
  match jsTruthy iconValue with
  | none => true
  | some iv =>
    !jsStartsWith iv "ti " || (iconClassesOf iv).all isTiClass

/-! ## Concrete instances used by counterexamples and witnesses -/

/-- A detector state recorded for an element whose expected foreground
color is `"red"` (element not bold at recording time). -/
def snapRecorded : StyleSnap :=
  { color := "red", backgroundColor := "", backgroundImage := ""
  , opacity := "1", dataIcon := "", hasBoldClass := false }

def stRecorded : DetState :=
  recordExpectedStyles "red" "" "" "1" "" snapRecorded 0

/-- A later reading of the same element: its color drifted to `"blue"` and
it now carries the bold class `b`. -/
def snapBoldDrift : StyleSnap :=
  { color := "blue", backgroundColor := "", backgroundImage := ""
  , opacity := "1", dataIcon := "", hasBoldClass := true }

/-- A block with neither color nor icon of its own. -/
def bpNoStyle : StyleProps :=
  { colorValue := none, iconValue := none
  , colorEnabled := false, iconEnabled := false }

/-- A tag with an enabled icon but no color. -/
def tagIconOnly : TagEntry :=
  { blockId := 10
  , props := { colorValue := none, iconValue := some "star"
             , colorEnabled := false, iconEnabled := true } }

/-- A tag with an enabled color and an enabled icon. -/
def tagColorAndIcon : TagEntry :=
  { blockId := 11
  , props := { colorValue := some "#222222", iconValue := some "umbrella"
             , colorEnabled := true, iconEnabled := true } }

/-- An element with no classes, no icon attribute and no inline styles. -/
def blankElem : Elem :=
  { classes := [], dataIcon := none
  , style := { color := none, backgroundColor := none
             , backgroundImage := none, opacity := none } }

/-- A one-handle block node. -/
def blankBlock : BlockNode :=
  { handles := [(true, blankElem)], titles := [], inlines := [] }

/-- A DOM cache whose container list for panel `"p"` holds a single handle
that has since been detached from the document. -/
def staleContainerCache : DOMCacheState :=
  { panelCache := []
  , containerCache := [("p" ++ "_containers", [{ eid := 1, attached := false }])] }

/-- A tag with an enabled color and no icon. -/
def tagColorOnly : TagEntry :=
  { blockId := 12
  , props := { colorValue := some "#333333", iconValue := none
             , colorEnabled := true, iconEnabled := false } }

/-- Two tag references of the tag kind (`type == 2`). -/
def refsTwoTags : List Ref :=
  [{ rid := 100, toId := 11, rtype := 2 }, { rid := 101, toId := 12, rtype := 2 }]

/-- Property oracle serving the two colored tags above. -/
def fetchTwoTags : Nat → StyleProps := fun n =>
  if n = 11 then tagColorAndIcon.props
  else if n = 12 then tagColorOnly.props
  else bpNoStyle

/-- The style the container path resolves for `refsTwoTags`. -/
def resolvedTwoTags : Resolved :=
  { aliasBlockId := 11, colorValue := some "#222222"
  , iconValue := some "umbrella", colorSource := .tag
  , domColor := some (calculateDomColor "#222222")
  , tagColors := ["#222222", "#333333"] }

/-- First application of the multi-tag writer to the blank one-handle
block, for a standard two-color gradient style with a Tabler icon. -/
def applyMultiOnce : BlockNode :=
  applyMultiTagHandleColor true false "#ff0000" (some "ti ti-star")
    ["#ff0000", "#00ff00"] .tag blankBlock

/-- Second application of the same style to the same node. -/
def applyMultiTwice : BlockNode :=
  applyMultiTagHandleColor true false "#ff0000" (some "ti ti-star")
    ["#ff0000", "#00ff00"] .tag applyMultiOnce

/-- Amended spec-side description of the tag fallback (the case where the
block has neither an enabled color nor an enabled icon): collect the first
four tags having an enabled color *or* icon (filter, then take 4);
`tagColors` is the enabled colors among those; the display color is
`tagColors[0]`; the icon comes from the first collected tag. -/
def resolveTagFallbackSpec (tags : List TagEntry) : Option Resolved :=
  match tags with
  | [] => none
  | _ :: _ =>
    match (tags.filter (fun t => isValidTag t.props)).take 4 with
    | [] => none
    | v0 :: vs =>
      match tagColorsOf (v0 :: vs) with
      | [] =>
        match enabledIcon v0.props with
        | some i =>
          some { aliasBlockId := v0.blockId, colorValue := none
               , iconValue := some i, colorSource := .tag
               , domColor := none, tagColors := [] }
        | none => none
      | c0 :: cs =>
        some { aliasBlockId := v0.blockId, colorValue := some c0
             , iconValue := v0.props.iconValue, colorSource := .tag
             , domColor := some (calculateDomColor c0)
             , tagColors := c0 :: cs }

/-! ## Association-list lemmas -/

theorem find?_setEntry (blockId : Nat) (e : CacheEntry) :
    ∀ c : List (Nat × CacheEntry),
      (setEntry c blockId e).find? (fun p => p.1 = blockId) = some (blockId, e) := by
  intro c
  induction c with
  | nil => simp [setEntry]
  | cons hd tl ih =>
    by_cases hk : hd.1 = blockId
    · simp [setEntry, List.find?, hk]
    · have htl :
          ((hd :: tl).find? (fun p => p.1 = blockId)).isSome
            = (tl.find? (fun p => p.1 = blockId)).isSome := by
        simp [List.find?, hk]
      by_cases hs : (tl.find? (fun p => p.1 = blockId)).isSome
      · simp only [setEntry, htl, hs, if_pos] at ih ⊢
        simp [List.find?, hk, setEntry, hs] at ih ⊢
        exact ih
      · simp only [setEntry, htl, hs, if_neg, Bool.false_eq_true,
          not_false_iff] at ih ⊢
        simp [List.find?, hk, setEntry, hs] at ih ⊢
        exact ih

theorem lookupEntry_setEntry (c : List (Nat × CacheEntry)) (blockId : Nat)
    (e : CacheEntry) : lookupEntry (setEntry c blockId e) blockId = some e := by
  simp [lookupEntry, find?_setEntry]

theorem lookupEntry_eraseEntry (c : List (Nat × CacheEntry)) (blockId : Nat) :
    lookupEntry (eraseEntry c blockId) blockId = none := by
  have h : (c.filter (fun p => p.1 ≠ blockId)).find? (fun p => p.1 = blockId)
      = none := by
    rw [List.find?_eq_none]
    intro p hp
    have := List.of_mem_filter hp
    simpa using this
  simp [lookupEntry, eraseEntry, h]

/-! ## Claim theorems -/

/-- C3: a property-cache entry written for a block at time `t0` is returned
unchanged by any `getBlockProperties` read at a time up to `t0 + TTL`
(leaving the cache untouched), while a read strictly after `t0 + TTL`
returns a miss (`none`) and evicts the entry, so an entry older than the
TTL is never served as fresh. -/
theorem getBlockProperties_ttl (cache : List (Nat × CacheEntry))
    (blockId : Nat) (props : StyleProps) (t0 now : Nat) (h0 : t0 ≤ now) :
    (now ≤ t0 + CACHE_TTL →
      getBlockProperties (setBlockProperties cache blockId props t0) blockId now
        = (some props, setBlockProperties cache blockId props t0)) ∧
    (t0 + CACHE_TTL < now →
      getBlockProperties (setBlockProperties cache blockId props t0) blockId now
        = (none,
           eraseEntry (setBlockProperties cache blockId props t0) blockId) ∧
      lookupEntry
        (eraseEntry (setBlockProperties cache blockId props t0) blockId)
        blockId = none) := by
  have hl : lookupEntry (setBlockProperties cache blockId props t0) blockId
      = some ⟨props, t0⟩ := lookupEntry_setEntry ..
  constructor
  · intro hfresh
    have hle : ¬ now - t0 > CACHE_TTL := by omega
    simp [getBlockProperties, hl, hle]
  · intro hstale
    have hgt : now - t0 > CACHE_TTL := by omega
    refine ⟨by simp [getBlockProperties, hl, hgt], lookupEntry_eraseEntry ..⟩

theorem getBlockProperties_ttl_witness :
    (0 : Nat) ≤ 4000 ∧ 5001 ≤ 0 + CACHE_TTL + 5001 ∧
    (getBlockProperties (setBlockProperties [] 7 bpNoStyle 0) 7 4000
        = (some bpNoStyle, setBlockProperties [] 7 bpNoStyle 0)) ∧
    (getBlockProperties (setBlockProperties [] 7 bpNoStyle 0) 7 5001
        = (none, eraseEntry (setBlockProperties [] 7 bpNoStyle 0) 7)) :=
  ⟨by decide, by decide,
   (getBlockProperties_ttl [] 7 bpNoStyle 0 4000 (by decide)).1 (by decide),
   ((getBlockProperties_ttl [] 7 bpNoStyle 0 5001 (by decide)).2 (by decide)).1⟩

/-- C7: when the backend fetch for a block throws or rejects,
`getBlockStyleProperties` resolves to the no-style result (null color, null
icon, both enabled flags false) instead of propagating the error, and it
caches that negative result, so a second resolution within the TTL is
answered from the cache no matter what the backend would do. -/
theorem getBlockStyleProperties_failure (cache : List (Nat × CacheEntry))
    (blockId : Nat) (now later : Nat) (fetch2 : FetchResult)
    (hmiss : lookupEntry cache blockId = none) (h1 : now ≤ later)
    (h2 : later ≤ now + CACHE_TTL) :
    getBlockStyleProperties cache blockId .failure now
      = (noStyleProps, setBlockProperties cache blockId noStyleProps now) ∧
    getBlockStyleProperties
        (setBlockProperties cache blockId noStyleProps now) blockId fetch2 later
      = (noStyleProps, setBlockProperties cache blockId noStyleProps now) := by
  constructor
  · simp [getBlockStyleProperties, getBlockProperties, hmiss]
  · have hl : lookupEntry (setBlockProperties cache blockId noStyleProps now)
        blockId = some ⟨noStyleProps, now⟩ := lookupEntry_setEntry ..
    have hle : ¬ later - now > CACHE_TTL := by omega
    simp [getBlockStyleProperties, getBlockProperties, hl, hle]

theorem getBlockStyleProperties_failure_witness :
    lookupEntry [] 3 = none ∧ (10 : Nat) ≤ 20 ∧ (20 : Nat) ≤ 10 + CACHE_TTL ∧
    (getBlockStyleProperties [] 3 .failure 10
      = (noStyleProps, setBlockProperties [] 3 noStyleProps 10)) ∧
    (getBlockStyleProperties (setBlockProperties [] 3 noStyleProps 10) 3
        (.success (some [⟨"_color", 1, some "#ff0000"⟩])) 20
      = (noStyleProps, setBlockProperties [] 3 noStyleProps 10)) :=
  ⟨by decide, by decide, by decide,
   (getBlockStyleProperties_failure [] 3 10 20
      (.success (some [⟨"_color", 1, some "#ff0000"⟩])) (by decide)
      (by decide) (by decide)).1,
   (getBlockStyleProperties_failure [] 3 10 20
      (.success (some [⟨"_color", 1, some "#ff0000"⟩])) (by decide)
      (by decide) (by decide)).2⟩

/-- C6: `generateMultiColorBackground` on two colors renders exactly the two
equal-half stops (0/50/100 percent boundaries in the linear form of
`src/main.ts`, 0–180/180–360 degrees in the conic form of the
`part_002` snapshot), on three colors exactly three 120-degree stops, on
four colors exactly four 90-degree stops, and on zero or one colors it
returns the empty string. -/
theorem generateMultiColorBackground_equal_stops :
    (generateMultiColorBackground [] = "" ∧
     generateMultiColorBackgroundV2 [] = "" ∧
     ∀ c, generateMultiColorBackground [c] = "" ∧
          generateMultiColorBackgroundV2 [c] = "") ∧
    (∀ c1 c2,
      equalStops 100 [hexToRgba c1 "0.75", hexToRgba c2 "0.75"]
        = [⟨hexToRgba c1 "0.75", 0, 50⟩, ⟨hexToRgba c2 "0.75", 50, 100⟩] ∧
      generateMultiColorBackground [c1, c2]
        = renderSteppedLinear
            (equalStops 100 ([c1, c2].map (fun c => hexToRgba c "0.75"))) ∧
      equalStops 360 [hexToRgba c1 "0.45", hexToRgba c2 "0.45"]
        = [⟨hexToRgba c1 "0.45", 0, 180⟩, ⟨hexToRgba c2 "0.45", 180, 360⟩] ∧
      generateMultiColorBackgroundV2 [c1, c2]
        = renderConic
            (equalStops 360 ([c1, c2].map (fun c => hexToRgba c "0.45")))) ∧
    (∀ c1 c2 c3,
      equalStops 360 [hexToRgba c1 "0.75", hexToRgba c2 "0.75",
          hexToRgba c3 "0.75"]
        = [⟨hexToRgba c1 "0.75", 0, 120⟩, ⟨hexToRgba c2 "0.75", 120, 240⟩,
           ⟨hexToRgba c3 "0.75", 240, 360⟩] ∧
      generateMultiColorBackground [c1, c2, c3]
        = renderConic
            (equalStops 360 ([c1, c2, c3].map (fun c => hexToRgba c "0.75")))) ∧
    (∀ c1 c2 c3 c4,
      equalStops 360 [hexToRgba c1 "0.75", hexToRgba c2 "0.75",
          hexToRgba c3 "0.75", hexToRgba c4 "0.75"]
        = [⟨hexToRgba c1 "0.75", 0, 90⟩, ⟨hexToRgba c2 "0.75", 90, 180⟩,
           ⟨hexToRgba c3 "0.75", 180, 270⟩, ⟨hexToRgba c4 "0.75", 270, 360⟩] ∧
      generateMultiColorBackground [c1, c2, c3, c4]
        = renderConic
            (equalStops 360
              ([c1, c2, c3, c4].map (fun c => hexToRgba c "0.75")))) := by
  refine ⟨⟨rfl, rfl, fun c => ⟨rfl, rfl⟩⟩, fun c1 c2 => ⟨?_, ?_, ?_, ?_⟩,
    fun c1 c2 c3 => ⟨?_, ?_⟩, fun c1 c2 c3 c4 => ⟨?_, ?_⟩⟩ <;>
    simp only [generateMultiColorBackground, generateMultiColorBackgroundV2,
      renderSteppedLinear, renderConic, equalStops, String.join, List.map,
      List.enum, List.enumFrom, List.foldl, List.length_cons, List.length_nil,
      String.append_assoc] <;> rfl

/-- C9: when `observePanelContainers` finds no panel containers it schedules
itself again after 100 ms with no attempt counter: in a document that never
produces a panel container, a retry is still scheduled after every number of
timer firings — the retry chain is unbounded (the source's own comment
claims at most 10 retries).  Once a query finds panels, no further retry is
scheduled. -/
theorem observePanelContainers_unbounded_retry :
    (∀ n, retryScheduledAfter (fun _ => 0) n = true) ∧
    (∀ panelCounts n, retryScheduledAfter panelCounts n = false →
      retryScheduledAfter panelCounts (n + 1) = false) := by
  constructor
  · intro n
    induction n with
    | zero => rfl
    | succ n ih => simpa [retryScheduledAfter] using ih
  · intro panelCounts n
    induction n generalizing panelCounts with
    | zero =>
      intro h
      simp only [retryScheduledAfter] at h ⊢
      rcases Nat.eq_zero_or_pos (panelCounts 0) with h0 | h0
      · simp [h0] at h
      · simp [Nat.pos_iff_ne_zero.mp h0]
    | succ n ih =>
      intro h
      simp only [retryScheduledAfter] at h ⊢
      rcases Nat.eq_zero_or_pos (panelCounts 0) with h0 | h0
      · simp only [h0, if_pos rfl] at h ⊢
        exact ih _ h
      · simp [Nat.pos_iff_ne_zero.mp h0]

/-- C10: for an element that has a recorded detector state and currently
carries the bold class `b`, `needsStyleUpdate` answers `false` (whatever the
scroll state, clock, or recorded expectation), so the observer never invokes
the style writer on a bold-marked element. -/
theorem needsStyleUpdate_bold_skip (isScrolling : Bool) (st : DetState)
    (cur : StyleSnap) (now : Nat) (h : cur.hasBoldClass = true) :
    (needsStyleUpdate isScrolling (some st) cur now).1 = false := by
  cases isScrolling <;> simp [needsStyleUpdate, h]

theorem needsStyleUpdate_bold_skip_witness :
    snapBoldDrift.hasBoldClass = true ∧
    (needsStyleUpdate false (some stRecorded) snapBoldDrift 50).1 = false :=
  ⟨by decide, needsStyleUpdate_bold_skip false stRecorded snapBoldDrift 50 (by decide)⟩

/-- C1 counterexample: a registered element whose recorded expectation was
`color = "red"` is observed with `color = "blue"` — a mismatch on one of the
five claimed style fields — but because the element currently carries the
bold class `b`, `needsStyleUpdate` returns `false` and leaves the recorded
state untouched: the mismatching tick neither resets the count nor causes a
re-apply, contradicting the claim. -/
theorem needsStyleUpdate_bold_mismatch_cex :
    stRecorded.expected.color = "red" ∧ snapBoldDrift.color = "blue" ∧
    snapMatch stRecorded.expected snapBoldDrift = false ∧
    needsStyleUpdate false (some stRecorded) snapBoldDrift 50
      = (false, some stRecorded) := by
  refine ⟨rfl, rfl, by decide, by decide⟩

/-- C1 (amended): for a registered element that does not currently carry
the bold class `b` (and outside scrolling), a tick whose applied snapshot
mismatches the recorded expectation — the comparison covering the five
style fields plus the recorded bold flag — resets the consecutive-match
count to 0, clears the stable flag and answers `true` (re-apply); a
matching tick increments the count and still answers `true` while the
count is below 3; the tick reaching count 3 marks the element stable and
answers `false`, and every further matching tick on a stable element
answers `false`, so the writer is no longer called.  (An element carrying
`b`, or a tick during scrolling, is skipped regardless of any mismatch —
that is the correction forced by the counterexample.) -/
theorem needsStyleUpdate_amended (st : DetState) (cur : StyleSnap) (now : Nat)
    (hb : cur.hasBoldClass = false) :
    (snapMatch st.expected cur = false →
      needsStyleUpdate false (some st) cur now
        = (true, some { st with changeCount := 0, lastChangeTime := now
                              , isStable := false })) ∧
    (snapMatch st.expected cur = true → st.isStable = false →
      st.changeCount + 1 < MAX_CHANGE_COUNT →
      needsStyleUpdate false (some st) cur now
        = (true, some { st with changeCount := st.changeCount + 1 })) ∧
    (snapMatch st.expected cur = true →
      st.changeCount + 1 ≥ MAX_CHANGE_COUNT →
      needsStyleUpdate false (some st) cur now
        = (false, some { st with changeCount := st.changeCount + 1
                               , isStable := true
                               , lastChangeTime := now })) ∧
    (snapMatch st.expected cur = true → st.isStable = true →
      (needsStyleUpdate false (some st) cur now).1 = false) := by
  refine ⟨fun hm => ?_, fun hm hs hc => ?_, fun hm hc => ?_, fun hm hs => ?_⟩
  · simp [needsStyleUpdate, hb, hm]
  · have hc' : ¬ st.changeCount + 1 ≥ MAX_CHANGE_COUNT := by omega
    simp [needsStyleUpdate, hb, hm, hc', hs]
  · simp [needsStyleUpdate, hb, hm, hc]
  · by_cases hc : st.changeCount + 1 ≥ MAX_CHANGE_COUNT
    · simp [needsStyleUpdate, hb, hm, hc]
    · simp [needsStyleUpdate, hb, hm, hc, hs]

theorem needsStyleUpdate_amended_witness :
    snapRecorded.hasBoldClass = false ∧
    snapMatch stRecorded.expected snapRecorded = true ∧
    needsStyleUpdate false (some stRecorded) snapRecorded 5
      = (true, some { stRecorded with changeCount := 1 }) :=
  ⟨by decide, by decide,
   (needsStyleUpdate_amended stRecorded snapRecorded 5 (by decide)).2.1
     (by decide) (by decide) (by decide)⟩

/-- C8 counterexample: a cached container-element list holding a handle
that is no longer attached to the document is returned as-is by
`getContainerElements` — the cache entry is neither revalidated nor
evicted, so a stale (detached) handle is handed out for a write,
contradicting the claim. -/
theorem getContainerElements_stale_cex :
    (getContainerElements staleContainerCache "p" none [] []).1
      = [{ eid := 1, attached := false }] ∧
    (getContainerElements staleContainerCache "p" none [] []).2
      = staleContainerCache ∧
    ({ eid := 1, attached := false } : DomElem).attached = false := by
  refine ⟨by decide, by decide, rfl⟩

/-- C8 (amended): cached *panel* elements are revalidated with
`document.contains` before reuse — whenever fresh queries only return
attached elements, `getPanelElement` never hands out a detached element
(a detached cached entry is evicted and re-queried); cached
*container-element lists*, by contrast, are reused whenever they are
non-empty with no liveness check at all, so a detached container handle
can be returned (they are only purged by the separate cleanup sweep or a
cache invalidation). -/
theorem domCache_liveness_amended (st : DOMCacheState) (pid : String)
    (panelQuery : Option DomElem) (containerQuery globalQuery : List DomElem)
    (hq : ∀ el, panelQuery = some el → el.attached = true) :
    (∀ el, (getPanelElement st pid panelQuery).1 = some el →
      el.attached = true) ∧
    (∀ l, containerLookup st (pid ++ "_containers") = some l →
      0 < l.length →
      getContainerElements st pid panelQuery containerQuery globalQuery
        = (l, st)) := by
  constructor
  · intro el hel
    unfold getPanelElement at hel
    rcases hp : panelLookup st pid with _ | ⟨_ | cached⟩ <;>
      simp only [hp] at hel
    · exact hq el hel
    · exact hq el hel
    · by_cases ha : cached.attached
      · simp only [ha, if_pos] at hel
        cases hel
        exact ha
      · simp only [ha, if_neg, Bool.false_eq_true, not_false_iff] at hel
        exact hq el hel
  · intro l hl hlen
    unfold getContainerElements
    simp [hl, Nat.pos_iff_ne_zero.mp hlen]

theorem domCache_liveness_amended_witness :
    (∀ el, (some { eid := 3, attached := true } : Option DomElem) = some el →
      el.attached = true) ∧
    getContainerElements staleContainerCache "p"
        (some { eid := 3, attached := true }) [] []
      = ([{ eid := 1, attached := false }], staleContainerCache) :=
  ⟨by intro el h; cases h; rfl,
   (domCache_liveness_amended staleContainerCache "p"
      (some { eid := 3, attached := true }) [] []
      (by intro el h; cases h; rfl)).2
     [{ eid := 1, attached := false }] (by decide) (by decide)⟩

theorem tagColors_source_withTags (blockId : Nat) (bp : StyleProps)
    (tags : List TagEntry) (r : Resolved)
    (h : containerResolveWithTags blockId bp tags = some r)
    (hgt : 1 < r.tagColors.length) : r.colorSource = .tag := by
  unfold containerResolveWithTags at h
  cases tags with
  | nil => simp at h
  | cons t ts =>
    rcases hv : getFirstValidTagProps (t :: ts) 4 with _ | ⟨v0, vs⟩ <;>
      simp only [hv] at h
    · exact absurd h (by simp)
    · rcases hc : enabledColor bp with _ | c <;> simp only [hc] at h
      · rcases hi : enabledIcon bp with _ | i <;> simp only [hi] at h
        · rcases htc : tagColorsOf (v0 :: vs) with _ | ⟨c0, cs⟩ <;>
            simp only [htc] at h
          · rcases hti : enabledIcon v0.props with _ | ti <;>
              simp only [hti] at h
            · exact absurd h (by simp)
            · obtain rfl := Option.some.inj h
              simp at hgt
          · obtain rfl := Option.some.inj h
            rfl
        · rcases htc : tagColorsOf (v0 :: vs) with _ | ⟨c0, cs⟩ <;>
            simp only [htc] at h
          · obtain rfl := Option.some.inj h
            simp at hgt
          · obtain rfl := Option.some.inj h
            rfl
      · obtain rfl := Option.some.inj h
        simp at hgt

theorem tagColors_le_one_noTags (blockId : Nat) (bp : StyleProps)
    (r : Resolved) (h : containerResolveNoTags blockId bp = some r) :
    r.tagColors.length ≤ 1 := by
  unfold containerResolveNoTags at h
  rcases hc : enabledColor bp with _ | c <;> simp only [hc] at h
  · rcases hi : enabledIcon bp with _ | i <;> simp only [hi] at h
    · exact absurd h (by simp)
    · obtain rfl := Option.some.inj h
      simp
  · obtain rfl := Option.some.inj h
    simp

/-- C5: every style the container path of `processPanelBlocks` resolves
satisfies the invariant that more than one tag color forces
`colorSource = tag`, and the writer dispatch sends such styles down the
multi-tag gradient path while styles with at most one tag color take the
single-color path. -/
theorem containerResolve_tagColors_invariant (hasTags : Bool)
    (blockId : Nat) (bp : StyleProps) (refs : List Ref)
    (orderList : Option (List Nat)) (fetchProps : Nat → StyleProps)
    (r : Resolved)
    (h : containerResolve hasTags blockId bp refs orderList fetchProps
          = some r) :
    (r.tagColors.length > 1 →
      r.colorSource = .tag ∧ renderPathFor r.tagColors = .multi) ∧
    (r.tagColors.length ≤ 1 → renderPathFor r.tagColors = .single) := by
  have hsingle : r.tagColors.length ≤ 1 → renderPathFor r.tagColors = .single := by
    intro hle
    simp [renderPathFor, Nat.not_lt.mpr hle]
  refine ⟨fun hgt => ⟨?_, by simp [renderPathFor, hgt]⟩, hsingle⟩
  unfold containerResolve at h
  by_cases ht : hasTags
  · simp only [ht, if_pos] at h
    cases refs with
    | nil => simp at h
    | cons hd tl =>
      exact tagColors_source_withTags _ _ _ _ h hgt
  · simp only [ht, Bool.false_eq_true, if_neg, not_false_iff] at h
    exact absurd (tagColors_le_one_noTags _ _ _ h) (by omega)

theorem containerResolve_tagColors_invariant_witness :
    containerResolve true 1 bpNoStyle refsTwoTags none fetchTwoTags
      = some resolvedTwoTags ∧
    resolvedTwoTags.tagColors.length > 1 ∧
    (resolvedTwoTags.colorSource = .tag ∧
     renderPathFor resolvedTwoTags.tagColors = .multi) :=
  ⟨by decide, by decide,
   (containerResolve_tagColors_invariant true 1 bpNoStyle refsTwoTags none
      fetchTwoTags resolvedTwoTags (by decide)).1 (by decide)⟩

theorem getFirstValidTagProps_eq_filter_take :
    ∀ (tags : List TagEntry) (n : Nat),
      getFirstValidTagProps tags n
        = (tags.filter (fun t => isValidTag t.props)).take n := by
  intro tags
  induction tags with
  | nil => intro n; cases n <;> rfl
  | cons t ts ih =>
    intro n
    cases n with
    | zero => simp [getFirstValidTagProps]
    | succ m =>
      by_cases hv : isValidTag t.props
      · simp [getFirstValidTagProps, hv, ih]
      · simp [getFirstValidTagProps, hv, ih]

/-- C4 counterexample: a block with neither color nor icon has two tags:
the first has only an enabled icon (`"star"`), the second has an enabled
color `"#222222"` and icon `"umbrella"`.  The resolver takes the icon from
the first *valid* (color-or-icon) tag — `"star"` — while the claim says the
icon comes from the first tag with an enabled color, whose icon is
`"umbrella"`: the claim fails on this input. -/
theorem containerResolve_icon_cex :
    containerResolveWithTags 1 bpNoStyle [tagIconOnly, tagColorAndIcon]
      = some { aliasBlockId := 10, colorValue := some "#222222"
             , iconValue := some "star", colorSource := .tag
             , domColor := some (calculateDomColor "#222222")
             , tagColors := ["#222222"] } ∧
    ([tagIconOnly, tagColorAndIcon].filter
        (fun t => (enabledColor t.props).isSome)).head?.map
        (fun t => t.props.iconValue) = some (some "umbrella") ∧
    some "star" ≠ (some "umbrella" : Option String) := by
  refine ⟨by decide, by decide, by decide⟩

/-- C4 (amended): for a block with neither an enabled color nor an enabled
icon, the resolver collects up to 4 of its tags, in explicit-order-corrected
reference order, that have an enabled color *or an enabled icon* (the first
four valid tags — filter then take 4); `tagColors` is exactly the colors of
the enabled-color tags among those collected; the display color is
`tagColors[0]`; and the icon is taken from the first *collected* tag, which
may be an icon-only tag rather than the first tag with a color. -/
theorem containerResolveWithTags_amended (blockId : Nat) (bp : StyleProps)
    (tags : List TagEntry) (hc : enabledColor bp = none)
    (hi : enabledIcon bp = none) :
    containerResolveWithTags blockId bp tags = resolveTagFallbackSpec tags := by
  unfold containerResolveWithTags resolveTagFallbackSpec
  cases tags with
  | nil => rfl
  | cons t ts =>
    rw [getFirstValidTagProps_eq_filter_take]
    rcases hv : ((t :: ts).filter (fun t => isValidTag t.props)).take 4 with
        _ | ⟨v0, vs⟩ <;>
      simp only [hv, hc, hi]

theorem containerResolveWithTags_amended_witness :
    enabledColor bpNoStyle = none ∧ enabledIcon bpNoStyle = none ∧
    containerResolveWithTags 1 bpNoStyle [tagIconOnly, tagColorAndIcon]
      = resolveTagFallbackSpec [tagIconOnly, tagColorAndIcon] :=
  ⟨by decide, by decide,
   containerResolveWithTags_amended 1 bpNoStyle [tagIconOnly, tagColorAndIcon]
     (by decide) (by decide)⟩

/-! ### Class-list lemmas for the style writer -/

theorem mem_classAdd {l : List String} {cls c : String} :
    c ∈ classAdd l cls ↔ c ∈ l ∨ c = cls := by
  unfold classAdd
  by_cases h : cls ∈ l
  · simp only [h, if_pos]
    constructor
    · exact Or.inl
    · rintro (hc | rfl)
      · exact hc
      · exact h
  · simp [h]

theorem mem_foldl_classAdd (toks : List String) :
    ∀ (l : List String) (c : String),
      c ∈ toks.foldl classAdd l ↔ c ∈ l ∨ c ∈ toks := by
  induction toks with
  | nil => simp
  | cons t ts ih =>
    intro l c
    simp only [List.foldl_cons, ih, mem_classAdd, List.mem_cons]
    tauto

theorem removeTi_classAdd {l : List String} {t : String}
    (h : isTiClass t = true) :
    removeTiClasses (classAdd l t) = removeTiClasses l := by
  unfold classAdd removeTiClasses
  by_cases hm : t ∈ l
  · simp [hm]
  · simp [hm, List.filter_append, h]

theorem removeTi_foldl (toks : List String)
    (h : ∀ t ∈ toks, isTiClass t = true) :
    ∀ l, removeTiClasses (toks.foldl classAdd l) = removeTiClasses l := by
  induction toks with
  | nil => intro l; rfl
  | cons t ts ih =>
    intro l
    rw [List.foldl_cons, ih (fun x hx => h x (List.mem_cons_of_mem t hx)),
      removeTi_classAdd (h t (List.mem_cons_self t ts))]

theorem removeTi_removeTi (l : List String) :
    removeTiClasses (removeTiClasses l) = removeTiClasses l := by
  simp [removeTiClasses, List.filter_filter]

theorem mem_removeTi {c : String} (hc : isTiClass c = false)
    (l : List String) : c ∈ removeTiClasses l ↔ c ∈ l := by
  simp [removeTiClasses, List.mem_filter, hc]

theorem tiClassUpdate_classes_idem {iv : String}
    (h : ∀ t ∈ iconClassesOf iv, isTiClass t = true) (e : Elem) :
    tiClassUpdate iv (tiClassUpdate iv e) = tiClassUpdate iv e := by
  simp only [tiClassUpdate, removeTi_foldl _ h, removeTi_removeTi]

theorem mem_tiClassUpdate_classes {iv c : String} (e : Elem) :
    c ∈ (tiClassUpdate iv e).classes ↔
      (c ∈ e.classes ∧ isTiClass c = false) ∨ c ∈ iconClassesOf iv := by
  simp [tiClassUpdate, mem_foldl_classAdd, removeTiClasses, List.mem_filter]

theorem tiTokensOK_tokens {icon : Option String} {iv : String}
    (h : tiTokensOK icon = true) (hj : jsTruthy icon = some iv)
    (hs : jsStartsWith iv "ti " = true) :
    ∀ t ∈ iconClassesOf iv, isTiClass t = true := by
  unfold tiTokensOK at h
  rw [hj] at h
  simp only [hs, Bool.not_true, Bool.false_or, List.all_eq_true] at h
  exact h

theorem isTiClass_collapsed : isTiClass collapsedClass = false := by decide

/-! ### Idempotence lemmas for the handle writer -/

theorem handleTiRaf_style (icon : Option String) (e : Elem) :
    (handleTiRaf icon e).style = e.style ∧
    (handleTiRaf icon e).dataIcon = e.dataIcon := by
  unfold handleTiRaf
  rcases jsTruthy icon with _ | iv
  · exact ⟨rfl, rfl⟩
  · by_cases hs : jsStartsWith iv "ti " <;> simp [hs, tiClassUpdate]

theorem handleTiRaf_idem (icon : Option String)
    (h : tiTokensOK icon = true) (e : Elem) :
    handleTiRaf icon (handleTiRaf icon e) = handleTiRaf icon e := by
  unfold handleTiRaf
  rcases hj : jsTruthy icon with _ | iv
  · rfl
  · by_cases hs : jsStartsWith iv "ti "
    · simp only [hs, if_pos]
      exact tiClassUpdate_classes_idem (tiTokensOK_tokens h hj hs) e
    · simp [hs]

theorem mem_handleTiRaf (icon : Option String)
    (h : tiTokensOK icon = true) {c : String} (hc : isTiClass c = false)
    (e : Elem) : c ∈ (handleTiRaf icon e).classes ↔ c ∈ e.classes := by
  unfold handleTiRaf
  rcases hj : jsTruthy icon with _ | iv
  · exact Iff.rfl
  · by_cases hs : jsStartsWith iv "ti "
    · simp only [hs, if_pos, mem_tiClassUpdate_classes]
      constructor
      · rintro (⟨hm, _⟩ | hm)
        · exact hm
        · exact absurd (tiTokensOK_tokens h hj hs c hm) (by simp [hc])
      · exact fun hm => Or.inl ⟨hm, hc⟩
    · simp [hs]

theorem handleSingleSync_classes (dc bg : String) (icon : Option String)
    (e : Elem) : (handleSingleSync dc bg icon e).classes = e.classes := by
  unfold handleSingleSync setColor setDataIcon setBgColor removeBgColor
    setOpacity
  rcases jsTruthy icon with _ | iv <;> dsimp only
  · split <;> rfl
  · split
    · split <;> rfl
    · split <;> rfl

theorem handleSingleSync_comm_raf (dc bg : String) (icon : Option String)
    (h : tiTokensOK icon = true) (e : Elem) :
    handleSingleSync dc bg icon (handleTiRaf icon e)
      = handleTiRaf icon (handleSingleSync dc bg icon e) := by
  rcases hj : jsTruthy icon with _ | iv
  · simp [handleTiRaf, hj]
  · by_cases hs : jsStartsWith iv "ti "
    · have htoks := tiTokensOK_tokens h hj hs
      have hmem : collapsedClass ∈
            List.foldl classAdd (removeTiClasses e.classes) (iconClassesOf iv)
          ↔ collapsedClass ∈ e.classes := by
        rw [mem_foldl_classAdd, mem_removeTi isTiClass_collapsed]
        constructor
        · rintro (hm | hm)
          · exact hm
          · exact absurd (htoks _ hm) (by simp [isTiClass_collapsed])
        · exact Or.inl
      unfold handleSingleSync handleTiRaf
      rw [hj]
      simp only [hs, if_pos]
      by_cases hcol : collapsedClass ∈ e.classes <;>
        simp [setColor, setBgColor, removeBgColor, setOpacity, tiClassUpdate,
          hmem, hcol]
    · unfold handleSingleSync handleTiRaf
      rw [hj]
      simp only [hs, Bool.false_eq_true, if_neg, not_false_iff]

theorem handleSingleSync_idem (dc bg : String) (icon : Option String)
    (e : Elem) :
    handleSingleSync dc bg icon (handleSingleSync dc bg icon e)
      = handleSingleSync dc bg icon e := by
  rcases hj : jsTruthy icon with _ | iv
  · unfold handleSingleSync
    rw [hj]
    by_cases hcol : collapsedClass ∈ e.classes <;>
      simp [setColor, setBgColor, removeBgColor, setOpacity, hcol]
  · by_cases hs : jsStartsWith iv "ti " <;>
      · unfold handleSingleSync
        rw [hj]
        by_cases hcol : collapsedClass ∈ e.classes <;>
          simp [hs, setColor, setDataIcon, setBgColor, removeBgColor,
            setOpacity, hcol]

theorem applyHandleSingle_idem (dc bg : String) (icon : Option String)
    (h : tiTokensOK icon = true) (e : Elem) :
    applyHandleSingle dc bg icon (applyHandleSingle dc bg icon e)
      = applyHandleSingle dc bg icon e := by
  unfold applyHandleSingle
  rw [handleSingleSync_comm_raf dc bg icon h, handleSingleSync_idem,
    handleTiRaf_idem icon h]

theorem classAdd_idem (l : List String) (c : String) :
    classAdd (classAdd l c) c = classAdd l c := by
  unfold classAdd
  by_cases hm : c ∈ l
  · simp [hm]
  · simp [hm]

theorem handleMultiBgRaf_single (c : String) (e : Elem) :
    handleMultiBgRaf [c] e = e := rfl

theorem handleMultiSync_comm_raf (dc : String) (icon : Option String)
    (tcs : List String) (h : tiTokensOK icon = true) (e : Elem) :
    handleMultiSync dc icon tcs (handleTiRaf icon e)
      = handleTiRaf icon (handleMultiSync dc icon tcs e) := by
  rcases hj : jsTruthy icon with _ | iv
  · simp [handleTiRaf, hj]
  · by_cases hs : jsStartsWith iv "ti "
    · have htoks := tiTokensOK_tokens h hj hs
      have hmem : collapsedClass ∈
            List.foldl classAdd (removeTiClasses e.classes) (iconClassesOf iv)
          ↔ collapsedClass ∈ e.classes := by
        rw [mem_foldl_classAdd, mem_removeTi isTiClass_collapsed]
        constructor
        · rintro (hm | hm)
          · exact hm
          · exact absurd (htoks _ hm) (by simp [isTiClass_collapsed])
        · exact Or.inl
      unfold handleMultiSync handleTiRaf
      rw [hj]
      simp only [hs, if_pos]
      rcases tcs with _ | ⟨c0, rest⟩
      · simp [setColor, tiClassUpdate]
      · rcases rest with _ | ⟨c1, rest2⟩
        · by_cases hcol : collapsedClass ∈ e.classes <;>
            simp [setColor, setBgColor, removeBgColor, removeBgImage,
              setOpacity, tiClassUpdate, hmem, hcol]
        · simp [setColor, tiClassUpdate]
    · unfold handleMultiSync handleTiRaf
      rw [hj]
      rcases tcs with _ | ⟨c0, rest⟩
      · simp [hs, setColor, setDataIcon]
      · rcases rest with _ | ⟨c1, rest2⟩
        · by_cases hcol : collapsedClass ∈ e.classes <;>
            simp [hs, setColor, setDataIcon, setBgColor, removeBgColor,
              removeBgImage, setOpacity, hcol]
        · simp [hs, setColor, setDataIcon]

theorem handleMultiSync_idem (dc : String) (icon : Option String)
    (tcs : List String) (e : Elem) :
    handleMultiSync dc icon tcs (handleMultiSync dc icon tcs e)
      = handleMultiSync dc icon tcs e := by
  unfold handleMultiSync
  rcases hj : jsTruthy icon with _ | iv
  · rcases tcs with _ | ⟨c0, rest⟩
    · simp [hj, setColor]
    · rcases rest with _ | ⟨c1, rest2⟩
      · by_cases hcol : collapsedClass ∈ e.classes <;>
          simp [hj, setColor, setBgColor, removeBgColor, removeBgImage,
            setOpacity, hcol]
      · simp [hj, setColor]
  · by_cases hs : jsStartsWith iv "ti " <;>
      rcases tcs with _ | ⟨c0, rest⟩
    · simp [hj, hs, setColor, setDataIcon]
    · rcases rest with _ | ⟨c1, rest2⟩
      · by_cases hcol : collapsedClass ∈ e.classes <;>
          simp [hj, hs, setColor, setDataIcon, setBgColor, removeBgColor,
            removeBgImage, setOpacity, hcol]
      · simp [hj, hs, setColor, setDataIcon]
    · simp [hj, hs, setColor, setDataIcon]
    · rcases rest with _ | ⟨c1, rest2⟩
      · by_cases hcol : collapsedClass ∈ e.classes <;>
          simp [hj, hs, setColor, setDataIcon, setBgColor, removeBgColor,
            removeBgImage, setOpacity, hcol]
      · simp [hj, hs, setColor, setDataIcon]

theorem applyHandleMulti_single_idem (dc : String) (icon : Option String)
    (c : String) (h : tiTokensOK icon = true) (e : Elem) :
    applyHandleMulti dc icon [c] (applyHandleMulti dc icon [c] e)
      = applyHandleMulti dc icon [c] e := by
  unfold applyHandleMulti
  rw [handleMultiBgRaf_single, handleMultiBgRaf_single,
    handleMultiSync_comm_raf dc icon [c] h, handleMultiSync_idem,
    handleTiRaf_idem icon h]

theorem mem_removeTi_general (c : String) (l : List String) :
    c ∈ removeTiClasses l ↔ c ∈ l ∧ isTiClass c = false := by
  simp [removeTiClasses, List.mem_filter]

theorem mem_swap_add_idem {toks : List String}
    (htoks : ∀ t ∈ toks, isTiClass t = true) (l : List String) (cls : String) :
    cls ∈ classAdd (toks.foldl classAdd (removeTiClasses
        (classAdd (toks.foldl classAdd (removeTiClasses l)) collapsedClass)))
      collapsedClass
    ↔ cls ∈ classAdd (toks.foldl classAdd (removeTiClasses l))
        collapsedClass := by
  have h1 := htoks cls
  simp only [mem_classAdd, mem_foldl_classAdd, mem_removeTi_general]
  by_cases hti : isTiClass cls = true
  · have h2 : cls ≠ collapsedClass := by
      intro hc
      rw [hc, isTiClass_collapsed] at hti
      cases hti
    simp [hti, h2]
  · have h3 : cls ∉ toks := fun hm => hti (h1 hm)
    simp only [Bool.not_eq_true] at hti
    simp [hti, h3]

theorem applyHandleMulti_set_idem (dc : String) (icon : Option String)
    (tcs : List String) (h : tiTokensOK icon = true) (e : Elem) :
    (applyHandleMulti dc icon tcs (applyHandleMulti dc icon tcs e)).style
      = (applyHandleMulti dc icon tcs e).style ∧
    (applyHandleMulti dc icon tcs (applyHandleMulti dc icon tcs e)).dataIcon
      = (applyHandleMulti dc icon tcs e).dataIcon ∧
    ∀ cls,
      cls ∈ (applyHandleMulti dc icon tcs
              (applyHandleMulti dc icon tcs e)).classes ↔
      cls ∈ (applyHandleMulti dc icon tcs e).classes := by
  rcases tcs with _ | ⟨c0, rest⟩
  case cons =>
    rcases rest with _ | ⟨c1, rest2⟩
    case nil =>
      rw [applyHandleMulti_single_idem dc icon c0 h]
      exact ⟨rfl, rfl, fun _ => Iff.rfl⟩
    case cons =>
      rcases hj : jsTruthy icon with _ | iv
      · unfold applyHandleMulti handleMultiBgRaf handleMultiSync handleTiRaf
        rw [hj]
        by_cases hbg : generateMultiColorBackground (c0 :: c1 :: rest2) ≠ "" <;>
          simp [hbg, setColor, setBgColor, setBgImage, removeBgColor,
            removeBgImage, setOpacity, classAdd_idem]
      · by_cases hs : jsStartsWith iv "ti "
        · have htoks := tiTokensOK_tokens h hj hs
          unfold applyHandleMulti handleMultiBgRaf handleMultiSync
            handleTiRaf tiClassUpdate
          rw [hj]
          by_cases hbg :
              generateMultiColorBackground (c0 :: c1 :: rest2) ≠ "" <;>
            simp [hs, hbg, setColor, setBgColor, setBgImage, removeBgColor,
              removeBgImage, setOpacity, mem_swap_add_idem htoks]
        · unfold applyHandleMulti handleMultiBgRaf handleMultiSync handleTiRaf
          rw [hj]
          by_cases hbg :
              generateMultiColorBackground (c0 :: c1 :: rest2) ≠ "" <;>
            simp [hs, hbg, setColor, setDataIcon, setBgColor, setBgImage,
              removeBgColor, removeBgImage, setOpacity, classAdd_idem]
  case nil =>
    rcases hj : jsTruthy icon with _ | iv
    · unfold applyHandleMulti handleMultiBgRaf handleMultiSync handleTiRaf
      rw [hj]
      simp [setColor, setBgColor, setBgImage, removeBgColor, removeBgImage,
        setOpacity, classAdd_idem, generateMultiColorBackground]
    · by_cases hs : jsStartsWith iv "ti "
      · have htoks := tiTokensOK_tokens h hj hs
        unfold applyHandleMulti handleMultiBgRaf handleMultiSync handleTiRaf
          tiClassUpdate
        rw [hj]
        simp [hs, setColor, setBgColor, setBgImage, removeBgColor,
          removeBgImage, setOpacity, generateMultiColorBackground,
          mem_swap_add_idem htoks]
      · unfold applyHandleMulti handleMultiBgRaf handleMultiSync handleTiRaf
        rw [hj]
        simp [hs, setColor, setDataIcon, setBgColor, setBgImage,
          removeBgColor, removeBgImage, setOpacity, classAdd_idem,
          generateMultiColorBackground]

theorem applyTitleSingle_idem (et : Bool) (dc : String) (e : Elem) :
    applyTitleSingle et dc (applyTitleSingle et dc e)
      = applyTitleSingle et dc e := by
  cases et <;> simp [applyTitleSingle, setColor, removeColorStyle]

theorem applyTitleMulti_idem (et : Bool) (src : Source) (dc : String)
    (e : Elem) :
    applyTitleMulti et src dc (applyTitleMulti et src dc e)
      = applyTitleMulti et src dc e := by
  cases et <;> cases src <;>
    simp [applyTitleMulti, setColor, removeColorStyle]

theorem applyInlineSingle_idem (ei : Bool) (dc : String) (e : Elem) :
    applyInlineSingle ei dc (applyInlineSingle ei dc e)
      = applyInlineSingle ei dc e := by
  by_cases hfc : "fc" ∈ e.classes
  · simp [applyInlineSingle, hfc]
  · by_cases hb : "b" ∈ e.classes <;> cases ei <;>
      simp [applyInlineSingle, setColor, removeColorStyle, hfc, hb]

theorem applyInlineMulti_idem (ei : Bool) (src : Source) (dc : String)
    (e : Elem) :
    applyInlineMulti ei src dc (applyInlineMulti ei src dc e)
      = applyInlineMulti ei src dc e := by
  by_cases hfc : "fc" ∈ e.classes
  · simp [applyInlineMulti, hfc]
  · by_cases hb : "b" ∈ e.classes <;> cases ei <;> cases src <;>
      simp [applyInlineMulti, setColor, removeColorStyle, hfc, hb]

theorem map_onOwn_idem {f : Elem → Elem} (hf : ∀ e, f (f e) = f e)
    (l : List (Bool × Elem)) :
    (l.map (onOwn f)).map (onOwn f) = l.map (onOwn f) := by
  rw [List.map_map]
  congr 1
  funext p
  rcases p with ⟨flag, e⟩
  cases flag <;> simp [onOwn, hf]

/-- C2 counterexample: applying the same resolved style — two tag colors
and the ordinary Tabler icon `"ti ti-star"` — twice to a fresh handle does
not leave the node in the same state as one application: the first apply
leaves the class list `[ti, ti-star, orca-block-handle-collapsed]`, while
the second apply's icon-class swap removes and re-appends the `ti` classes
after the collapsed marker, producing
`[orca-block-handle-collapsed, ti, ti-star]` — a different class list (the
inline styles do agree). -/
theorem applyMultiTag_not_idempotent_cex :
    applyMultiTwice ≠ applyMultiOnce ∧
    applyMultiOnce.handles.map (fun p => p.2.classes)
      = [["ti", "ti-star", collapsedClass]] ∧
    applyMultiTwice.handles.map (fun p => p.2.classes)
      = [[collapsedClass, "ti", "ti-star"]] ∧
    applyMultiTwice.handles.map (fun p => p.2.style)
      = applyMultiOnce.handles.map (fun p => p.2.style) := by
  refine ⟨by decide, by decide, by decide, by decide⟩

/-- C2 (amended): for icon values that are absent, non-Tabler, or made up
solely of `ti`/`ti-` classes, the single-color writer
`applyBlockHandleColor` is idempotent on the nose (same inline styles,
same attributes, same class list — the icon-class swap removes every
previous `ti`/`ti-` class before re-adding, so classes never accumulate);
the multi-tag writer is idempotent for its title and inline surfaces and
for a single tag color, and on the gradient handle surface a second
application reproduces the same inline styles, the same `data-icon`, and
the same *set* of classes — only the relative order of the collapsed
marker and the icon classes may change (as the counterexample forces). -/
theorem applyStyle_idem_amended (enableTitleColor enableInlineColor : Bool)
    (displayColor bgColorValue : String) (iconValue : Option String)
    (tagColors : List String) (colorSource : Source) (b : BlockNode)
    (e : Elem) (c1 : String) (h : tiTokensOK iconValue = true) :
    (applyBlockHandleColor enableTitleColor enableInlineColor displayColor
        bgColorValue iconValue
        (applyBlockHandleColor enableTitleColor enableInlineColor
          displayColor bgColorValue iconValue b)
      = applyBlockHandleColor enableTitleColor enableInlineColor displayColor
          bgColorValue iconValue b) ∧
    (applyHandleMulti displayColor iconValue [c1]
        (applyHandleMulti displayColor iconValue [c1] e)
      = applyHandleMulti displayColor iconValue [c1] e) ∧
    ((applyHandleMulti displayColor iconValue tagColors
        (applyHandleMulti displayColor iconValue tagColors e)).style
      = (applyHandleMulti displayColor iconValue tagColors e).style ∧
     (applyHandleMulti displayColor iconValue tagColors
        (applyHandleMulti displayColor iconValue tagColors e)).dataIcon
      = (applyHandleMulti displayColor iconValue tagColors e).dataIcon ∧
     ∀ cls,
       cls ∈ (applyHandleMulti displayColor iconValue tagColors
               (applyHandleMulti displayColor iconValue tagColors e)).classes
       ↔ cls ∈ (applyHandleMulti displayColor iconValue tagColors e).classes) ∧
    (applyTitleMulti enableTitleColor colorSource displayColor
        (applyTitleMulti enableTitleColor colorSource displayColor e)
      = applyTitleMulti enableTitleColor colorSource displayColor e) ∧
    (applyInlineMulti enableInlineColor colorSource displayColor
        (applyInlineMulti enableInlineColor colorSource displayColor e)
      = applyInlineMulti enableInlineColor colorSource displayColor e) := by
  refine ⟨?_, applyHandleMulti_single_idem _ _ _ h e,
    applyHandleMulti_set_idem _ _ _ h e, applyTitleMulti_idem ..,
    applyInlineMulti_idem ..⟩
  unfold applyBlockHandleColor
  rw [map_onOwn_idem (applyHandleSingle_idem displayColor bgColorValue
      iconValue h),
    map_onOwn_idem (applyTitleSingle_idem enableTitleColor displayColor),
    map_onOwn_idem (applyInlineSingle_idem enableInlineColor displayColor)]

theorem applyStyle_idem_amended_witness :
    tiTokensOK (some "ti ti-star") = true ∧
    applyBlockHandleColor true false "#ff0000" "#ff0000" (some "ti ti-star")
        (applyBlockHandleColor true false "#ff0000" "#ff0000"
          (some "ti ti-star") blankBlock)
      = applyBlockHandleColor true false "#ff0000" "#ff0000"
          (some "ti ti-star") blankBlock :=
  ⟨by decide,
   (applyStyle_idem_amended true false "#ff0000" "#ff0000"
      (some "ti ti-star") [] .tag blankBlock blankElem "x" (by decide)).1⟩

end TagColor
